import Mathlib

/-!
# Verification of the cliff-server device registry and notification fan-out

Shallow embedding of `src/main.go` (package main of Samasaur1/cliff-server).

Modelling conventions:
* `tailcfg.UserID` (an integer) is modelled as `Int`; `tailcfg.StableNodeID`
  (a string) as `String`.
* A Go `map[K]V` is modelled as `Option (List (K × V))` with unique keys up to
  the operations used: `none` is Go's nil map (the code distinguishes nil maps
  from empty ones in the registration handlers), `some l` is an allocated map
  whose iteration order is the order of `l` (Go map iteration order is
  unspecified, so theorems quantify over the list order).
* Map read `m[k]` is first-match lookup returning the zero value when absent;
  map write `m[k] = v` replaces the first binding of `k` or appends.
* The gob encode/decode layer is modelled abstractly: encoding a registry
  succeeds and records the registry with gob's zero-value omission applied
  (gob omits struct fields that are zero; a map field of length 0 is zero, so
  empty maps decode back as nil maps); decoding is exact on encoded data and
  fails on anything else (`corrupt`).
* Provider adapters (`apns2.Client.Push`, FCM `Send`) are environment oracles:
  a function from the endpoint record to the outcome of that call.
-/

namespace Cliff

/-- `tailcfg.UserID`. -/
abbrev UserID := Int

/-- `tailcfg.StableNodeID`. -/
abbrev StableNodeID := String

/-- `DeviceData` from main.go: one registered APNs endpoint. -/
structure DeviceData where
  nodeNameAtRegistration : String
  apnsToken : String
  deriving DecidableEq, Repr

/-- `FcmDeviceData` from main.go: one registered FCM endpoint. -/
structure FcmDeviceData where
  nodeNameAtRegistration : String
  fcmToken : String
  deriving DecidableEq, Repr

/-- A Go `map[K]V`: `none` is the nil map, `some l` an allocated map. -/
abbrev GoMap (K V : Type) := Option (List (K × V))

/-- First-match association-list lookup (Go map read on an allocated map). -/
def listLookup {K V : Type} [DecidableEq K] (k : K) : List (K × V) → Option V
  | [] => none
  | (k', v) :: rest => if k' = k then some v else listLookup k rest

/-- Go map read `m[k]`: reading a nil map yields no entry. -/
def goGet {K V : Type} [DecidableEq K] (m : GoMap K V) (k : K) : Option V :=
  match m with
  | none => none
  | some l => listLookup k l

/-- Replace the first binding of `k` or append (Go map write on an allocated map). -/
def listInsert {K V : Type} [DecidableEq K] (k : K) (v : V) : List (K × V) → List (K × V)
  | [] => [(k, v)]
  | (k', v') :: rest =>
      if k' = k then (k, v) :: rest else (k', v') :: listInsert k v rest

/-- Go map write `m[k] = v` on a map known to be allocated (writing to a nil
map would panic in Go; the handlers only write after a nil check or to a map
they just allocated). -/
def goPut {K V : Type} [DecidableEq K] (m : GoMap K V) (k : K) (v : V) : GoMap K V :=
  match m with
  | none => some [(k, v)]
  | some l => some (listInsert k v l)

/-- Go map iteration: a nil map ranges over nothing. -/
def goList {K V : Type} (m : GoMap K V) : List (K × V) :=
  match m with
  | none => []
  | some l => l

/-- `UserData` from main.go. -/
structure UserData where
  usernameAtRegistration : String
  devices : GoMap StableNodeID DeviceData
  fcmDevices : GoMap StableNodeID FcmDeviceData
  deriving DecidableEq, Repr

/-- The registry `devices : map[tailcfg.UserID]UserData`. The top-level map is
allocated before any handler runs, so it is a plain association list. -/
abbrev Registry := List (UserID × UserData)

/-- The state mutation of the `POST /register` handler (main.go lines 258-289),
after identity resolution and body read: `uid`/`username` come from
`who.UserProfile`, `node`/`nodeName` from `who.Node`, `apnsToken` from the
request body. -/
def registerAPNS (devices : Registry) (uid : UserID) (username : String)
    (node : StableNodeID) (nodeName : String) (apnsToken : String) : Registry :=
  match listLookup uid devices with
  | none =>
      -- First device for this user
      listInsert uid
        { usernameAtRegistration := username
          devices := some [(node, { nodeNameAtRegistration := nodeName, apnsToken := apnsToken })]
          fcmDevices := some [] } devices
  | some ud =>
      match ud.devices with
      | none =>
          listInsert uid
            { usernameAtRegistration := username
              devices := some [(node, { nodeNameAtRegistration := nodeName, apnsToken := apnsToken })]
              fcmDevices := ud.fcmDevices } devices
      | some devs =>
          -- devices[uid].Devices[node] = DeviceData{...}: in-place write to the
          -- shared inner map; UsernameAtRegistration is not touched here.
          let devs' := listInsert node
            { nodeNameAtRegistration := nodeName, apnsToken := apnsToken } devs
          listInsert uid { ud with devices := some devs' } devices

/-- The state mutation of the `/registerFCM` handler (main.go lines 315-346). -/
def registerFCM (devices : Registry) (uid : UserID) (username : String)
    (node : StableNodeID) (nodeName : String) (fcmToken : String) : Registry :=
  match listLookup uid devices with
  | none =>
      -- First device for this user
      listInsert uid
        { usernameAtRegistration := username
          devices := some []
          fcmDevices := some [(node, { nodeNameAtRegistration := nodeName, fcmToken := fcmToken })] }
        devices
  | some ud =>
      match ud.fcmDevices with
      | none =>
          listInsert uid
            { usernameAtRegistration := username
              devices := ud.devices
              fcmDevices := some [(node, { nodeNameAtRegistration := nodeName, fcmToken := fcmToken })] }
            devices
      | some devs =>
          let devs' := listInsert node
            { nodeNameAtRegistration := nodeName, fcmToken := fcmToken } devs
          listInsert uid { ud with fcmDevices := some devs' } devices

/-- `NotificationContent` from main.go. -/
structure NotificationContent where
  title : String
  subtitle : String
  body : String
  deriving DecidableEq, Repr

/-- The APNs payload built by `sendNotification` (alert fields set only when
non-empty; sound and interruption level are fixed). -/
structure ApnsPayload where
  alertTitle : Option String
  alertSubtitle : Option String
  alertBody : Option String
  sound : String
  interruptionLevel : String
  deriving DecidableEq, Repr

/-- The FCM notification built by `sendNotification` (title/body only when
non-empty; subtitle never set). -/
structure FcmMsg where
  title : Option String
  body : Option String
  androidPriority : String
  deriving DecidableEq, Repr

/-- Payload construction at the top of `sendNotification` (main.go 183-196). -/
def apnsPayloadOf (nc : NotificationContent) : ApnsPayload :=
  { alertTitle := if nc.title ≠ "" then some nc.title else none
    alertSubtitle := if nc.subtitle ≠ "" then some nc.subtitle else none
    alertBody := if nc.body ≠ "" then some nc.body else none
    sound := "default"
    interruptionLevel := "time-sensitive" }

/-- FCM message construction in `sendNotification` (main.go 184-195, 222-228). -/
def fcmMsgOf (nc : NotificationContent) : FcmMsg :=
  { title := if nc.title ≠ "" then some nc.title else none
    body := if nc.body ≠ "" then some nc.body else none
    androidPriority := "high" }

/-- Outcome of one `apnsClient.Push` call: `err != nil` is a transport-level
error carrying `err.Error()`; `!res.Sent()` a provider-reported rejection
carrying `res.Reason`; otherwise delivered. -/
inductive ApnsOutcome where
  | sent
  | notSent (reason : String)
  | transportErr (msg : String)
  deriving DecidableEq, Repr

/-- Outcome of one `fcmClient.Send` call. -/
inductive FcmOutcome where
  | delivered
  | failed (msg : String)
  deriving DecidableEq, Repr

/-- One provider call actually made by a dispatch, with the token it used. -/
inductive Attempt where
  | apns (node : StableNodeID) (token : String) (payload : ApnsPayload)
  | fcm (node : StableNodeID) (token : String) (msg : FcmMsg)
  deriving DecidableEq, Repr

def Attempt.isApns : Attempt → Bool
  | .apns _ _ _ => true
  | .fcm _ _ _ => false

def Attempt.node : Attempt → StableNodeID
  | .apns n _ _ => n
  | .fcm n _ _ => n

/-- The HTTP response the handler writes: `ok` when it returns without calling
`http.Error`. -/
inductive HResponse where
  | ok
  | clientErr (msg : String)
  | serverErr (msg : String)
  deriving DecidableEq, Repr

/-- What one dispatch did: the provider calls made (in order), the response
written, and the log lines for rejected deliveries. -/
structure DispatchResult where
  attempts : List Attempt
  response : HResponse
  rejectionLogs : List String
  deriving DecidableEq, Repr

/-- The APNs loop of `sendNotification` (main.go 199-217): push to each APNs
device in iteration order; a transport-level error writes a 500 and aborts the
whole handler; a provider rejection is logged and the loop continues. Returns
the attempts made, the rejection logs, and the abort error if any. -/
def apnsLoop (payload : ApnsPayload) (push : StableNodeID → DeviceData → ApnsOutcome) :
    List (StableNodeID × DeviceData) → List Attempt × List String × Option String
  | [] => ([], [], none)
  | (n, dd) :: rest =>
      match push n dd with
      | .transportErr m => ([.apns n dd.apnsToken payload], [], some m)
      | .notSent reason =>
          let (a, l, e) := apnsLoop payload push rest
          (.apns n dd.apnsToken payload :: a, reason :: l, e)
      | .sent =>
          let (a, l, e) := apnsLoop payload push rest
          (.apns n dd.apnsToken payload :: a, l, e)

/-- The FCM loop of `sendNotification` (main.go 219-235): send to each FCM
device; any error writes a 500 and aborts. -/
def fcmLoop (msg : FcmMsg) (send : StableNodeID → FcmDeviceData → FcmOutcome) :
    List (StableNodeID × FcmDeviceData) → List Attempt × Option String
  | [] => ([], none)
  | (n, fd) :: rest =>
      match send n fd with
      | .failed m => ([.fcm n fd.fcmToken msg], some m)
      | .delivered =>
          let (a, e) := fcmLoop msg send rest
          (.fcm n fd.fcmToken msg :: a, e)

/-- `sendNotification` (main.go 182-236): the dispatch over the registry for
one identity. `push`/`send` are the provider adapters (environment oracles). -/
def sendNote (devices : Registry) (push : StableNodeID → DeviceData → ApnsOutcome)
    (send : StableNodeID → FcmDeviceData → FcmOutcome)
    (uid : UserID) (nc : NotificationContent) : DispatchResult :=
  let payload := apnsPayloadOf nc
  let msg := fcmMsgOf nc
  let ud := listLookup uid devices
  let apnsDevs := goList (match ud with | none => none | some u => u.devices)
  let fcmDevs := goList (match ud with | none => none | some u => u.fcmDevices)
  match apnsLoop payload push apnsDevs with
  | (a, l, some m) => { attempts := a, response := .serverErr m, rejectionLogs := l }
  | (a, l, none) =>
      match fcmLoop msg send fcmDevs with
      | (b, some m) => { attempts := a ++ b, response := .serverErr m, rejectionLogs := l }
      | (b, none) => { attempts := a ++ b, response := .ok, rejectionLogs := l }

/-- The registry read of §4.1 `devicesFor`: the two endpoint sequences a
dispatch iterates over for an identity. -/
def devicesFor (devices : Registry) (uid : UserID) :
    List (StableNodeID × DeviceData) × List (StableNodeID × FcmDeviceData) :=
  match listLookup uid devices with
  | none => ([], [])
  | some ud => (goList ud.devices, goList ud.fcmDevices)

/-- Result of an HTTP handler body that may index out of bounds. -/
inductive SendOutcome where
  | panicked
  | completed (r : DispatchResult)
  deriving DecidableEq, Repr

/-- The `POST /send` handler after identity resolution and `ParseForm`
(main.go 379-393): `titleVals`, `subtitleVals`, `bodyVals` are the form value
slices `r.Form["title"]` etc.; the handler indexes each at 0 unconditionally,
which panics (out of bounds) when the field is absent. -/
def postSend (devices : Registry) (push : StableNodeID → DeviceData → ApnsOutcome)
    (send : StableNodeID → FcmDeviceData → FcmOutcome) (uid : UserID)
    (titleVals subtitleVals bodyVals : List String) : SendOutcome :=
  match titleVals, subtitleVals, bodyVals with
  | t :: _, s :: _, b :: _ =>
      let nc : NotificationContent := { title := t, subtitle := s, body := b }
      if nc.title = "" ∧ nc.body = "" then
        .completed { attempts := [], response := .clientErr "Notification must have content",
                     rejectionLogs := [] }
      else
        .completed (sendNote devices push send uid nc)
  | _, _, _ => .panicked

/-- The `POST /sendJSON` handler after identity resolution and a successful
JSON decode (main.go 417-424). -/
def postSendJSON (devices : Registry) (push : StableNodeID → DeviceData → ApnsOutcome)
    (send : StableNodeID → FcmDeviceData → FcmOutcome) (uid : UserID)
    (nc : NotificationContent) : DispatchResult :=
  if nc.title = "" ∧ nc.body = "" then
    { attempts := [], response := .clientErr "Notification must have content",
      rejectionLogs := [] }
  else
    sendNote devices push send uid nc

/-! ## Persistence: the `devices.gob` snapshot (main.go 123-135, 155-171) -/

/-- Contents of the snapshot file as seen by `os.Open` + gob decode: the file
may be absent (`os.Open` fails), hold bytes that fail to decode (truncated or
corrupted), or hold a complete gob encoding of a registry. -/
inductive FileContent where
  | absent
  | corrupt
  | stored (r : Registry)
  deriving DecidableEq, Repr

/-- gob's zero-value omission on one Go map field: a map of length 0 (nil or
allocated-empty) is the field's zero value, is omitted from the stream, and
decodes back as a nil map. -/
def normMap {K V : Type} (m : GoMap K V) : GoMap K V :=
  match m with
  | none => none
  | some [] => none
  | some l => some l

/-- gob round trip of one `UserData` value. -/
def normUser (u : UserData) : UserData :=
  { usernameAtRegistration := u.usernameAtRegistration
    devices := normMap u.devices
    fcmDevices := normMap u.fcmDevices }

/-- gob round trip of the registry value. -/
def normalizeRegistry (r : Registry) : Registry :=
  r.map (fun p => (p.1, normUser p.2))

/-- The shutdown goroutine's save (main.go 160-168): `os.Create` + gob encode
of the whole registry. The stored artifact decodes back to the registry up to
gob's zero-value omission. -/
def saveDevices (r : Registry) : FileContent :=
  .stored (normalizeRegistry r)

/-- Outcome of the startup device-data setup: either the process continues
serving with a registry, or it dies with `log.Fatal`. -/
inductive LoadResult where
  | started (devices : Registry)
  | fatal (msg : String)
  deriving DecidableEq, Repr

/-- The startup load (main.go 123-135): open failure or decode failure both
fall back to an empty registry; no path is fatal. -/
def loadDevices : FileContent → LoadResult
  | .absent => .started []
  | .corrupt => .started []
  | .stored r => .started r

/-- The snapshot-file states observable if the process dies during the
shutdown save: before `os.Create` the old contents remain; `os.Create`
truncates the target in place (no temporary file, no rename), so from then
until the final write completes the file holds a strict prefix of one gob
value, which fails to decode; after the last write the new encoding is
complete. -/
def saveCrashStates (old : FileContent) (r : Registry) : List FileContent :=
  [old, .corrupt, saveDevices r]

/-- Token of the APNS endpoint stored for `(uid, node)`, if any. -/
def apnsTokenAt (devices : Registry) (uid : UserID) (node : StableNodeID) : Option String :=
  match listLookup uid devices with
  | none => none
  | some ud => (goGet ud.devices node).map (·.apnsToken)

/-- Token of the FCM endpoint stored for `(uid, node)`, if any. -/
def fcmTokenAt (devices : Registry) (uid : UserID) (node : StableNodeID) : Option String :=
  match listLookup uid devices with
  | none => none
  | some ud => (goGet ud.fcmDevices node).map (·.fcmToken)

/-! ## Well-formedness and counting helpers -/

/-- Association-list keys are pairwise distinct (always true of a Go map). -/
def NodupKeys {K V : Type} (l : List (K × V)) : Prop :=
  (l.map Prod.fst).Nodup

instance {K V : Type} [DecidableEq K] (l : List (K × V)) : Decidable (NodupKeys l) :=
  inferInstanceAs (Decidable (l.map Prod.fst).Nodup)

/-- A Go map value is well-formed: nil, or an entry list with distinct keys. -/
def goMapWF {K V : Type} (m : GoMap K V) : Prop :=
  match m with
  | none => True
  | some l => NodupKeys l

instance {K V : Type} [DecidableEq K] (m : GoMap K V) : Decidable (goMapWF m) :=
  match m with
  | none => .isTrue trivial
  | some l => inferInstanceAs (Decidable (NodupKeys l))

/-- Registry well-formedness: distinct user keys, and every per-user device
map well-formed. Any registry reachable from Go maps satisfies this. -/
def regWF (d : Registry) : Prop :=
  NodupKeys d ∧ ∀ p ∈ d, goMapWF p.2.devices ∧ goMapWF p.2.fcmDevices

instance (d : Registry) : Decidable (regWF d) :=
  inferInstanceAs (Decidable (_ ∧ _))

/-- Number of entries stored under key `k`. -/
def countKey {K V : Type} [DecidableEq K] (k : K) (l : List (K × V)) : Nat :=
  (l.filter (fun p => p.1 = k)).length

/-- The attempts the APNs loop makes when nothing aborts it. -/
def apnsAttempts (payload : ApnsPayload) (l : List (StableNodeID × DeviceData)) : List Attempt :=
  l.map (fun p => .apns p.1 p.2.apnsToken payload)

/-- The attempts the FCM loop makes when nothing aborts it. -/
def fcmAttempts (msg : FcmMsg) (l : List (StableNodeID × FcmDeviceData)) : List Attempt :=
  l.map (fun p => .fcm p.1 p.2.fcmToken msg)

/-- The rejection reasons the APNs loop logs. -/
def rejLogs (push : StableNodeID → DeviceData → ApnsOutcome)
    (l : List (StableNodeID × DeviceData)) : List String :=
  l.filterMap (fun p =>
    match push p.1 p.2 with
    | .notSent reason => some reason
    | _ => none)

/-- APNS attempts in a list that target device `node`. -/
def apnsAttemptsFor (node : StableNodeID) (l : List Attempt) : List Attempt :=
  l.filter (fun a => a.isApns && a.node = node)

/-- FCM attempts in a list that target device `node`. -/
def fcmAttemptsFor (node : StableNodeID) (l : List Attempt) : List Attempt :=
  l.filter (fun a => !a.isApns && a.node = node)

/-- An adapter environment in which every APNs push is accepted. -/
def allSent : StableNodeID → DeviceData → ApnsOutcome := fun _ _ => .sent

/-- An adapter environment in which every FCM send succeeds. -/
def allDelivered : StableNodeID → FcmDeviceData → FcmOutcome := fun _ _ => .delivered

/-- An adapter environment in which every APNs push fails at transport level. -/
def pushBoom : StableNodeID → DeviceData → ApnsOutcome := fun _ _ => .transportErr "boom"

/-- Concrete registry used as the pre-save snapshot in counterexamples. -/
def regOldEx : Registry :=
  [(1, { usernameAtRegistration := "alice"
         devices := some [("D1", { nodeNameAtRegistration := "phone", apnsToken := "t1" })]
         fcmDevices := none })]

/-- Concrete registry being saved in counterexamples. -/
def regNewEx : Registry :=
  [(2, { usernameAtRegistration := "bob"
         devices := some [("D2", { nodeNameAtRegistration := "pad", apnsToken := "t2" })]
         fcmDevices := none })]

/-- Concrete registry with one device registered under both providers. -/
def regBothEx : Registry :=
  [(0, { usernameAtRegistration := "u"
         devices := some [("D1", { nodeNameAtRegistration := "p", apnsToken := "tokA" })]
         fcmDevices := some [("D1", { nodeNameAtRegistration := "p", fcmToken := "tokF" })] })]

/-! ## Association-list lemmas -/

theorem listLookup_insert_self {K V : Type} [DecidableEq K] (k : K) (v : V)
    (l : List (K × V)) : listLookup k (listInsert k v l) = some v := by
  induction l with
  | nil => simp [listInsert, listLookup]
  | cons p rest ih =>
      obtain ⟨k', v'⟩ := p
      by_cases h : k' = k
      · simp [listInsert, h, listLookup]
      · simp [listInsert, h, listLookup, ih]

theorem listLookup_insert_ne {K V : Type} [DecidableEq K] {k k' : K} (v : V)
    (l : List (K × V)) (hne : k' ≠ k) :
    listLookup k' (listInsert k v l) = listLookup k' l := by
  induction l with
  | nil => simp [listInsert, listLookup, Ne.symm hne]
  | cons p rest ih =>
      obtain ⟨k'', v''⟩ := p
      by_cases h : k'' = k
      · subst h
        simp [listInsert, listLookup, Ne.symm hne]
      · simp [listInsert, h, listLookup, ih]

theorem listLookup_mem {K V : Type} [DecidableEq K] {k : K} {v : V}
    {l : List (K × V)} (h : listLookup k l = some v) : (k, v) ∈ l := by
  induction l with
  | nil => simp [listLookup] at h
  | cons p rest ih =>
      obtain ⟨k', v'⟩ := p
      by_cases hk : k' = k
      · subst hk
        simp [listLookup] at h
        simp [h]
      · simp [listLookup, hk] at h
        exact List.mem_cons_of_mem _ (ih h)

theorem listLookup_eq_none {K V : Type} [DecidableEq K] {k : K} {l : List (K × V)} :
    listLookup k l = none ↔ k ∉ l.map Prod.fst := by
  induction l with
  | nil => simp [listLookup]
  | cons p rest ih =>
      obtain ⟨k', v'⟩ := p
      by_cases h : k' = k
      · subst h
        simp [listLookup]
      · simp [listLookup, h, ih, Ne.symm h]

theorem map_fst_insert {K V : Type} [DecidableEq K] (k : K) (v : V) (l : List (K × V)) :
    (listInsert k v l).map Prod.fst =
      if (listLookup k l).isNone then l.map Prod.fst ++ [k] else l.map Prod.fst := by
  induction l with
  | nil => simp [listInsert, listLookup]
  | cons p rest ih =>
      obtain ⟨k', v'⟩ := p
      by_cases h : k' = k
      · subst h
        simp [listInsert, listLookup]
      · simp only [listInsert, h, if_false, List.map_cons, ih, listLookup]
        rcases h2 : listLookup k rest with _ | w <;> simp [h2, Ne.symm h]

theorem countKey_eq_count {K V : Type} [DecidableEq K] (k : K) (l : List (K × V)) :
    countKey k l = (l.map Prod.fst).count k := by
  induction l with
  | nil => rfl
  | cons p rest ih =>
      obtain ⟨k', v'⟩ := p
      by_cases h : k' = k
      · subst h
        simp [countKey, List.filter_cons, List.count_cons, ih]
        simp [countKey] at ih
        omega
      · simp [countKey, List.filter_cons, List.count_cons, h, Ne.symm h, ih]
        simp [countKey] at ih
        omega

theorem countKey_insert {K V : Type} [DecidableEq K] (k : K) (v : V)
    (l : List (K × V)) : countKey k (listInsert k v l) = max 1 (countKey k l) := by
  rw [countKey_eq_count, countKey_eq_count, map_fst_insert]
  rcases h2 : listLookup k l with _ | w
  · have hz : (l.map Prod.fst).count k = 0 :=
      List.count_eq_zero.mpr (listLookup_eq_none.mp h2)
    simp [List.count_append, hz]
  · have hk : k ∈ l.map Prod.fst := by
      by_contra hc
      rw [listLookup_eq_none.mpr hc] at h2
      exact Option.noConfusion h2
    have hpos : 0 < (l.map Prod.fst).count k := List.count_pos_iff.mpr hk
    simp only [Option.isNone_some, Bool.false_eq_true, if_false]
    omega

theorem countKey_le_one_of_nodup {K V : Type} [DecidableEq K] {k : K}
    {l : List (K × V)} (h : NodupKeys l) : countKey k l ≤ 1 := by
  rw [countKey_eq_count]
  exact List.nodup_iff_count_le_one.mp h k

theorem listLookup_filter_eq_of_nodup {K V : Type} [DecidableEq K] {k : K} {v : V}
    {l : List (K × V)} (hnd : NodupKeys l) (h : listLookup k l = some v) :
    l.filter (fun p => p.1 = k) = [(k, v)] := by
  induction l with
  | nil => simp [listLookup] at h
  | cons p rest ih =>
      obtain ⟨k', v'⟩ := p
      simp only [NodupKeys, List.map_cons, List.nodup_cons] at hnd
      obtain ⟨hnotin, hrest⟩ := hnd
      by_cases hk : k' = k
      · subst hk
        simp only [listLookup, if_true, reduceIte] at h
        have hv : v' = v := by simpa using h
        subst hv
        have hz : rest.filter (fun p => decide (p.1 = k')) = [] := by
          rw [List.filter_eq_nil_iff]
          intro p hp hdec
          simp only [decide_eq_true_eq] at hdec
          exact hnotin (by
            have : p.1 ∈ rest.map Prod.fst := List.mem_map_of_mem _ hp
            rwa [hdec] at this)
        simp [List.filter_cons, hz]
      · simp only [listLookup, hk, if_false] at h
        simpa [List.filter_cons, hk] using ih hrest h

theorem listLookup_filter_nil {K V : Type} [DecidableEq K] {k : K}
    {l : List (K × V)} (h : listLookup k l = none) :
    l.filter (fun p => p.1 = k) = [] := by
  induction l with
  | nil => simp
  | cons p rest ih =>
      obtain ⟨k', v'⟩ := p
      by_cases hk : k' = k
      · subst hk
        simp [listLookup] at h
      · simp only [listLookup, hk, if_false] at h
        simpa [List.filter_cons, hk] using ih h

/-! ## Dispatch-loop characterizations -/

theorem apnsLoop_no_transport (payload : ApnsPayload)
    (push : StableNodeID → DeviceData → ApnsOutcome) :
    ∀ l : List (StableNodeID × DeviceData),
      (∀ p ∈ l, ∀ m, push p.1 p.2 ≠ .transportErr m) →
      apnsLoop payload push l = (apnsAttempts payload l, rejLogs push l, none)
  | [], _ => rfl
  | (n, dd) :: rest, h => by
      have hrest := apnsLoop_no_transport payload push rest
        (fun p hp => h p (List.mem_cons_of_mem _ hp))
      have hhd := h (n, dd) (List.mem_cons_self _ _)
      rcases hp : push n dd with _ | reason | m
      · simp [apnsLoop, hp, hrest, apnsAttempts, rejLogs]
      · simp [apnsLoop, hp, hrest, apnsAttempts, rejLogs]
      · exact absurd hp (hhd m)

theorem apnsLoop_transport_at (payload : ApnsPayload)
    (push : StableNodeID → DeviceData → ApnsOutcome) :
    ∀ (pre : List (StableNodeID × DeviceData)) (n : StableNodeID) (dd : DeviceData)
      (post : List (StableNodeID × DeviceData)) (m : String),
      (∀ p ∈ pre, ∀ m', push p.1 p.2 ≠ .transportErr m') →
      push n dd = .transportErr m →
      apnsLoop payload push (pre ++ (n, dd) :: post) =
        (apnsAttempts payload pre ++ [.apns n dd.apnsToken payload], rejLogs push pre, some m)
  | [], n, dd, post, m, _, hm => by simp [apnsLoop, hm, apnsAttempts, rejLogs]
  | (n', dd') :: pre, n, dd, post, m, hpre, hm => by
      have hrest := apnsLoop_transport_at payload push pre n dd post m
        (fun p hp => hpre p (List.mem_cons_of_mem _ hp)) hm
      have hhd := hpre (n', dd') (List.mem_cons_self _ _)
      rcases hp : push n' dd' with _ | reason | m'
      · simp [apnsLoop, hp, hrest, apnsAttempts, rejLogs]
      · simp [apnsLoop, hp, hrest, apnsAttempts, rejLogs]
      · exact absurd hp (hhd m')

theorem fcmLoop_no_fail (msg : FcmMsg)
    (send : StableNodeID → FcmDeviceData → FcmOutcome) :
    ∀ l : List (StableNodeID × FcmDeviceData),
      (∀ p ∈ l, ∀ m, send p.1 p.2 ≠ .failed m) →
      fcmLoop msg send l = (fcmAttempts msg l, none)
  | [], _ => rfl
  | (n, fd) :: rest, h => by
      have hrest := fcmLoop_no_fail msg send rest
        (fun p hp => h p (List.mem_cons_of_mem _ hp))
      have hhd := h (n, fd) (List.mem_cons_self _ _)
      rcases hp : send n fd with _ | m
      · simp [fcmLoop, hp, hrest, fcmAttempts]
      · exact absurd hp (hhd m)

theorem devicesFor_fst (d : Registry) (uid : UserID) :
    goList (match listLookup uid d with | none => none | some u => u.devices) =
      (devicesFor d uid).1 := by
  unfold devicesFor
  rcases listLookup uid d with _ | u <;> rfl

theorem devicesFor_snd (d : Registry) (uid : UserID) :
    goList (match listLookup uid d with | none => none | some u => u.fcmDevices) =
      (devicesFor d uid).2 := by
  unfold devicesFor
  rcases listLookup uid d with _ | u <;> rfl

theorem sendNote_unfold (d : Registry) (push : StableNodeID → DeviceData → ApnsOutcome)
    (send : StableNodeID → FcmDeviceData → FcmOutcome) (uid : UserID)
    (nc : NotificationContent) :
    sendNote d push send uid nc =
      match apnsLoop (apnsPayloadOf nc) push (devicesFor d uid).1 with
      | (a, l, some m) => { attempts := a, response := .serverErr m, rejectionLogs := l }
      | (a, l, none) =>
          match fcmLoop (fcmMsgOf nc) send (devicesFor d uid).2 with
          | (b, some m) => { attempts := a ++ b, response := .serverErr m, rejectionLogs := l }
          | (b, none) => { attempts := a ++ b, response := .ok, rejectionLogs := l } := by
  simp only [sendNote]
  rw [devicesFor_fst, devicesFor_snd]

/-! ## Snapshot lemmas -/

theorem listLookup_normalize (r : Registry) (uid : UserID) :
    listLookup uid (normalizeRegistry r) = (listLookup uid r).map normUser := by
  induction r with
  | nil => rfl
  | cons p rest ih =>
      obtain ⟨k, u⟩ := p
      simp only [normalizeRegistry] at ih ⊢
      by_cases h : k = uid <;> simp [listLookup, h, ih, List.map_cons]

theorem goGet_normMap {K V : Type} [DecidableEq K] (m : GoMap K V) (k : K) :
    goGet (normMap m) k = goGet m k := by
  rcases m with _ | l
  · rfl
  · rcases l with _ | ⟨p, rest⟩ <;> rfl

theorem apnsTokenAt_normalize (r : Registry) (uid : UserID) (node : StableNodeID) :
    apnsTokenAt (normalizeRegistry r) uid node = apnsTokenAt r uid node := by
  unfold apnsTokenAt
  rw [listLookup_normalize]
  rcases listLookup uid r with _ | ud
  · rfl
  · simp only [Option.map_some]
    show (goGet (normMap ud.devices) node).map _ = _
    rw [goGet_normMap]

theorem fcmTokenAt_normalize (r : Registry) (uid : UserID) (node : StableNodeID) :
    fcmTokenAt (normalizeRegistry r) uid node = fcmTokenAt r uid node := by
  unfold fcmTokenAt
  rw [listLookup_normalize]
  rcases listLookup uid r with _ | ud
  · rfl
  · simp only [Option.map_some]
    show (goGet (normMap ud.fcmDevices) node).map _ = _
    rw [goGet_normMap]

/-! ## Claim theorems: persistence (C3, C4, C5) -/

/-- C3: loading at startup from a missing snapshot file, or from a file whose
contents fail to decode, yields an empty registry; no snapshot contents make
startup fatal (main.go 123-135 has no fatal path). -/
theorem C3_load_always_starts :
    loadDevices .absent = .started [] ∧ loadDevices .corrupt = .started [] ∧
    ∀ f : FileContent, ∃ d : Registry, loadDevices f = .started d := by
  refine ⟨rfl, rfl, fun f => ?_⟩
  rcases f with _ | _ | r
  · exact ⟨[], rfl⟩
  · exact ⟨[], rfl⟩
  · exact ⟨r, rfl⟩

/-- C4 counterexample: the shutdown save truncates `devices.gob` in place
(`os.Create`) with no temporary file, so the crash state after truncation is
visible to the next load as neither the old registry nor the new one: the
claim that a partial save is never visible to a subsequent load fails. -/
theorem C4_counterexample :
    FileContent.corrupt ∈ saveCrashStates (FileContent.stored regOldEx) regNewEx ∧
    loadDevices FileContent.corrupt ≠ loadDevices (FileContent.stored regOldEx) ∧
    loadDevices FileContent.corrupt ≠ loadDevices (saveDevices regNewEx) := by
  refine ⟨?_, ?_, ?_⟩ <;> decide

/-- C4 amended: the save is not atomic — it truncates the final path in place,
so an interrupted save can be visible to the next load; what holds is that
any crash state loads as the old contents, the empty registry (via the
corrupt-file fallback), or the completed new snapshot, so startup still
succeeds after any interruption. -/
theorem C4_crash_load_cases (old : FileContent) (r : Registry) (f : FileContent)
    (hf : f ∈ saveCrashStates old r) :
    loadDevices f = loadDevices old ∨ loadDevices f = .started [] ∨
      loadDevices f = .started (normalizeRegistry r) := by
  simp only [saveCrashStates, List.mem_cons, List.not_mem_nil, or_false] at hf
  rcases hf with rfl | rfl | rfl
  · exact .inl rfl
  · exact .inr (.inl rfl)
  · exact .inr (.inr rfl)

/-- Witness for C4_crash_load_cases at a concrete crash state. -/
theorem C4_crash_load_cases_witness :
    loadDevices .corrupt = loadDevices .absent ∨ loadDevices .corrupt = .started [] ∨
      loadDevices .corrupt = .started (normalizeRegistry []) :=
  C4_crash_load_cases .absent [] .corrupt (by decide)

/-- C5: saving a snapshot and loading it back reproduces an equal registry —
the load succeeds with the gob-normalized registry, which has the same
identities and the same per-device tokens under each provider as the
original; as the statement quantifies over every entry order, the result is
independent of insertion order. -/
theorem C5_snapshot_roundtrip (r : Registry) (uid : UserID) (node : StableNodeID) :
    loadDevices (saveDevices r) = .started (normalizeRegistry r) ∧
    (listLookup uid (normalizeRegistry r)).isSome = (listLookup uid r).isSome ∧
    apnsTokenAt (normalizeRegistry r) uid node = apnsTokenAt r uid node ∧
    fcmTokenAt (normalizeRegistry r) uid node = fcmTokenAt r uid node := by
  refine ⟨rfl, ?_, apnsTokenAt_normalize r uid node, fcmTokenAt_normalize r uid node⟩
  rw [listLookup_normalize]
  rcases listLookup uid r with _ | u <;> rfl

/-! ## Claim theorems: content gate, empty identity, form indexing (C6, C7, C9) -/

/-- C6: on both `POST /send` (with all three form fields present) and
`POST /sendJSON`, a request whose title and body are both empty is answered
with the 400 "Notification must have content" before any provider call is
attempted (the result records zero attempts), and a request with title or
body non-empty proceeds to the dispatch. -/
theorem C6_empty_content_rejected (d : Registry)
    (push : StableNodeID → DeviceData → ApnsOutcome)
    (send : StableNodeID → FcmDeviceData → FcmOutcome) (uid : UserID)
    (t s b : String) (ts ss bs : List String) (nc : NotificationContent) :
    (t = "" ∧ b = "" →
      postSend d push send uid (t :: ts) (s :: ss) (b :: bs) =
        .completed { attempts := [], response := .clientErr "Notification must have content",
                     rejectionLogs := [] }) ∧
    (¬(t = "" ∧ b = "") →
      postSend d push send uid (t :: ts) (s :: ss) (b :: bs) =
        .completed (sendNote d push send uid { title := t, subtitle := s, body := b })) ∧
    (nc.title = "" ∧ nc.body = "" →
      postSendJSON d push send uid nc =
        { attempts := [], response := .clientErr "Notification must have content",
          rejectionLogs := [] }) ∧
    (¬(nc.title = "" ∧ nc.body = "") →
      postSendJSON d push send uid nc = sendNote d push send uid nc) := by
  refine ⟨?_, ?_, ?_, ?_⟩ <;> intro h <;> simp [postSend, postSendJSON, h]

/-- Witness for C6_empty_content_rejected: both branches of both handlers at
concrete requests. -/
theorem C6_empty_content_rejected_witness :
    (postSend [] allSent allDelivered 0 [""] [""] [""] =
      .completed { attempts := [], response := .clientErr "Notification must have content",
                   rejectionLogs := [] }) ∧
    (postSend [] allSent allDelivered 0 ["Hi"] [""] [""] =
      .completed (sendNote [] allSent allDelivered 0 { title := "Hi", subtitle := "", body := "" })) ∧
    (postSendJSON [] allSent allDelivered 0 { title := "", subtitle := "", body := "" } =
      { attempts := [], response := .clientErr "Notification must have content",
        rejectionLogs := [] }) ∧
    (postSendJSON [] allSent allDelivered 0 { title := "Hi", subtitle := "", body := "" } =
      sendNote [] allSent allDelivered 0 { title := "Hi", subtitle := "", body := "" }) := by
  refine ⟨?_, ?_, ?_, ?_⟩
  · exact (C6_empty_content_rejected [] allSent allDelivered 0 "" "" "" [] [] []
      { title := "", subtitle := "", body := "" }).1 ⟨rfl, rfl⟩
  · exact (C6_empty_content_rejected [] allSent allDelivered 0 "Hi" "" "" [] [] []
      { title := "", subtitle := "", body := "" }).2.1 (by simp)
  · exact (C6_empty_content_rejected [] allSent allDelivered 0 "x" "" "" [] [] []
      { title := "", subtitle := "", body := "" }).2.2.1 ⟨rfl, rfl⟩
  · exact (C6_empty_content_rejected [] allSent allDelivered 0 "x" "" "" [] [] []
      { title := "Hi", subtitle := "", body := "" }).2.2.2 (by simp)

/-- C7: an identity with zero registered devices (in particular one never
registered) dispatches with zero provider calls, an empty report, and no
error; looking up an unknown identity yields two empty endpoint sequences. -/
theorem C7_empty_identity_noop (d : Registry)
    (push : StableNodeID → DeviceData → ApnsOutcome)
    (send : StableNodeID → FcmDeviceData → FcmOutcome) (uid : UserID)
    (nc : NotificationContent) (h : devicesFor d uid = ([], [])) :
    sendNote d push send uid nc =
      { attempts := [], response := .ok, rejectionLogs := [] } ∧
    ∀ uid' : UserID, listLookup uid' d = none → devicesFor d uid' = ([], []) := by
  constructor
  · rw [sendNote_unfold, h]
    rfl
  · intro uid' h'
    unfold devicesFor
    rw [h']

/-- Witness for C7_empty_identity_noop on the empty registry. -/
theorem C7_empty_identity_noop_witness :
    sendNote [] allSent allDelivered 7 { title := "Hi", subtitle := "", body := "" } =
      { attempts := [], response := .ok, rejectionLogs := [] } ∧
    ∀ uid' : UserID, listLookup uid' ([] : Registry) = none →
      devicesFor [] uid' = ([], []) :=
  C7_empty_identity_noop [] allSent allDelivered 7
    { title := "Hi", subtitle := "", body := "" } rfl

/-- C9: the `POST /send` handler indexes `r.Form["title"][0]` (and likewise
subtitle/body) without a length check: a request omitting one of the fields
makes the access out of bounds, so the handler panics instead of producing the
400 response. -/
theorem C9_missing_field_panics :
    postSend [] allSent allDelivered 0 [] ["s"] ["b"] = .panicked ∧
    ∀ r : DispatchResult, SendOutcome.panicked ≠ .completed r :=
  ⟨rfl, fun _ h => SendOutcome.noConfusion h⟩

/-! ## Registration lemmas -/

theorem registerAPNS_post (d : Registry) (uid : UserID) (u : String)
    (node : StableNodeID) (n t : String) (hwf : regWF d) :
    ∃ (un : String) (devs : List (StableNodeID × DeviceData))
      (fm : GoMap StableNodeID FcmDeviceData),
      listLookup uid (registerAPNS d uid u node n t) = some ⟨un, some devs, fm⟩ ∧
      listLookup node devs = some { nodeNameAtRegistration := n, apnsToken := t } ∧
      countKey node devs = 1 := by
  rcases h : listLookup uid d with _ | ⟨un0, _ | devs0, fcmm⟩
  · refine ⟨u, [(node, ⟨n, t⟩)], some [], ?_, ?_, ?_⟩
    · unfold registerAPNS
      rw [h]
      exact listLookup_insert_self uid _ d
    · simp [listLookup]
    · simp [countKey, List.filter_cons]
  · refine ⟨u, [(node, ⟨n, t⟩)], fcmm, ?_, ?_, ?_⟩
    · unfold registerAPNS
      rw [h]
      exact listLookup_insert_self uid _ d
    · simp [listLookup]
    · simp [countKey, List.filter_cons]
  · have hnd : NodupKeys devs0 := by
      have hm := (hwf.2 (uid, ⟨un0, some devs0, fcmm⟩) (listLookup_mem h)).1
      exact hm
    refine ⟨un0, listInsert node ⟨n, t⟩ devs0, fcmm, ?_,
      listLookup_insert_self node _ devs0, ?_⟩
    · unfold registerAPNS
      rw [h]
      exact listLookup_insert_self uid _ d
    · rw [countKey_insert]
      have hle := countKey_le_one_of_nodup (k := node) hnd
      omega

theorem registerAPNS_again (d1 : Registry) (uid : UserID) (u un : String)
    (node : StableNodeID) (n t : String)
    (devs1 : List (StableNodeID × DeviceData)) (fm : GoMap StableNodeID FcmDeviceData)
    (h : listLookup uid d1 = some ⟨un, some devs1, fm⟩) :
    registerAPNS d1 uid u node n t =
      listInsert uid ⟨un, some (listInsert node ⟨n, t⟩ devs1), fm⟩ d1 := by
  unfold registerAPNS
  rw [h]

theorem registerFCM_post (d : Registry) (uid : UserID) (u : String)
    (node : StableNodeID) (n t : String) (hwf : regWF d) :
    ∃ (un : String) (am : GoMap StableNodeID DeviceData)
      (devs : List (StableNodeID × FcmDeviceData)),
      listLookup uid (registerFCM d uid u node n t) = some ⟨un, am, some devs⟩ ∧
      listLookup node devs = some { nodeNameAtRegistration := n, fcmToken := t } ∧
      countKey node devs = 1 := by
  rcases h : listLookup uid d with _ | ⟨un0, am0, _ | devs0⟩
  · refine ⟨u, some [], [(node, ⟨n, t⟩)], ?_, ?_, ?_⟩
    · unfold registerFCM
      rw [h]
      exact listLookup_insert_self uid _ d
    · simp [listLookup]
    · simp [countKey, List.filter_cons]
  · refine ⟨u, am0, [(node, ⟨n, t⟩)], ?_, ?_, ?_⟩
    · unfold registerFCM
      rw [h]
      exact listLookup_insert_self uid _ d
    · simp [listLookup]
    · simp [countKey, List.filter_cons]
  · have hnd : NodupKeys devs0 := by
      have hm := (hwf.2 (uid, ⟨un0, am0, some devs0⟩) (listLookup_mem h)).2
      exact hm
    refine ⟨un0, am0, listInsert node ⟨n, t⟩ devs0, ?_,
      listLookup_insert_self node _ devs0, ?_⟩
    · unfold registerFCM
      rw [h]
      exact listLookup_insert_self uid _ d
    · rw [countKey_insert]
      have hle := countKey_le_one_of_nodup (k := node) hnd
      omega

theorem registerFCM_again (e1 : Registry) (uid : UserID) (u un : String)
    (node : StableNodeID) (n t : String)
    (am : GoMap StableNodeID DeviceData) (devs1 : List (StableNodeID × FcmDeviceData))
    (h : listLookup uid e1 = some ⟨un, am, some devs1⟩) :
    registerFCM e1 uid u node n t =
      listInsert uid ⟨un, am, some (listInsert node ⟨n, t⟩ devs1)⟩ e1 := by
  unfold registerFCM
  rw [h]

/-! ## Claim theorems: idempotent registration (C1) -/

/-- C1 counterexample: two `POST /register` calls for the same
`(identity, device, provider)` with different tokens and display names. The
second call stores the latest token, but the repeat-registration branch
(main.go 284-288) writes only the inner device map, so the UserRecord-level
display name stays "alice" — not the "bob" the claim requires. -/
theorem C1_counterexample :
    (listLookup 0 (registerAPNS (registerAPNS [] 0 "alice" "D1" "ph1" "t1")
        0 "bob" "D1" "ph2" "t2")).map (·.usernameAtRegistration) = some "alice" ∧
    (listLookup 0 (registerAPNS (registerAPNS [] 0 "alice" "D1" "ph1" "t1")
        0 "bob" "D1" "ph2" "t2")).map (·.usernameAtRegistration) ≠ some "bob" ∧
    listLookup "D1" (devicesFor (registerAPNS (registerAPNS [] 0 "alice" "D1" "ph1" "t1")
        0 "bob" "D1" "ph2" "t2") 0).1 =
      some { nodeNameAtRegistration := "ph2", apnsToken := "t2" } := by
  refine ⟨?_, ?_, ?_⟩ <;> decide

/-- C1 amended: after two registrations for the same
`(identity, device, provider)` on a well-formed registry, exactly one endpoint
is stored for that tuple, holding the second call's token and device display
name; but the UserRecord-level display name is left unchanged by the second
call (it keeps whatever the first call left there), because the
repeat-registration branch updates only the device map. Both providers. -/
theorem C1_register_overwrite_amended (d d1 d2 e1 e2 : Registry) (uid : UserID)
    (u1 u2 n1 n2 t1 t2 v1 v2 m1 m2 s1 s2 : String) (node fnode : StableNodeID)
    (hwf : regWF d)
    (h1 : d1 = registerAPNS d uid u1 node n1 t1)
    (h2 : d2 = registerAPNS d1 uid u2 node n2 t2)
    (g1 : e1 = registerFCM d uid v1 fnode m1 s1)
    (g2 : e2 = registerFCM e1 uid v2 fnode m2 s2) :
    (listLookup node (devicesFor d2 uid).1 =
        some { nodeNameAtRegistration := n2, apnsToken := t2 } ∧
      countKey node (devicesFor d2 uid).1 = 1 ∧
      (listLookup uid d2).map (·.usernameAtRegistration) =
        (listLookup uid d1).map (·.usernameAtRegistration)) ∧
    (listLookup fnode (devicesFor e2 uid).2 =
        some { nodeNameAtRegistration := m2, fcmToken := s2 } ∧
      countKey fnode (devicesFor e2 uid).2 = 1 ∧
      (listLookup uid e2).map (·.usernameAtRegistration) =
        (listLookup uid e1).map (·.usernameAtRegistration)) := by
  constructor
  · obtain ⟨un, devs1, fm, hl1, hlk1, hc1⟩ := registerAPNS_post d uid u1 node n1 t1 hwf
    subst h1 h2
    rw [registerAPNS_again _ uid u2 un node n2 t2 devs1 fm hl1]
    have hl2 : listLookup uid
        (listInsert uid ⟨un, some (listInsert node ⟨n2, t2⟩ devs1), fm⟩
          (registerAPNS d uid u1 node n1 t1)) =
        some ⟨un, some (listInsert node ⟨n2, t2⟩ devs1), fm⟩ :=
      listLookup_insert_self uid _ _
    refine ⟨?_, ?_, ?_⟩
    · unfold devicesFor
      rw [hl2]
      exact listLookup_insert_self node _ devs1
    · unfold devicesFor
      rw [hl2]
      show countKey node (listInsert node ⟨n2, t2⟩ devs1) = 1
      rw [countKey_insert]
      omega
    · rw [hl2, hl1]
      rfl
  · obtain ⟨un, am, devs1, hl1, hlk1, hc1⟩ := registerFCM_post d uid v1 fnode m1 s1 hwf
    subst g1 g2
    rw [registerFCM_again _ uid v2 un fnode m2 s2 am devs1 hl1]
    have hl2 : listLookup uid
        (listInsert uid ⟨un, am, some (listInsert fnode ⟨m2, s2⟩ devs1)⟩
          (registerFCM d uid v1 fnode m1 s1)) =
        some ⟨un, am, some (listInsert fnode ⟨m2, s2⟩ devs1)⟩ :=
      listLookup_insert_self uid _ _
    refine ⟨?_, ?_, ?_⟩
    · unfold devicesFor
      rw [hl2]
      exact listLookup_insert_self fnode _ devs1
    · unfold devicesFor
      rw [hl2]
      show countKey fnode (listInsert fnode ⟨m2, s2⟩ devs1) = 1
      rw [countKey_insert]
      omega
    · rw [hl2, hl1]
      rfl

/-- Witness for C1_register_overwrite_amended on the empty registry with
concrete identities, tokens and names. -/
theorem C1_register_overwrite_amended_witness :
    (listLookup "D1" (devicesFor (registerAPNS (registerAPNS [] 0 "alice" "D1" "ph1" "t1")
          0 "bob" "D1" "ph2" "t2") 0).1 =
        some { nodeNameAtRegistration := "ph2", apnsToken := "t2" } ∧
      countKey "D1" (devicesFor (registerAPNS (registerAPNS [] 0 "alice" "D1" "ph1" "t1")
          0 "bob" "D1" "ph2" "t2") 0).1 = 1 ∧
      (listLookup 0 (registerAPNS (registerAPNS [] 0 "alice" "D1" "ph1" "t1")
          0 "bob" "D1" "ph2" "t2")).map (·.usernameAtRegistration) =
        (listLookup 0 (registerAPNS [] 0 "alice" "D1" "ph1" "t1")).map
          (·.usernameAtRegistration)) ∧
    (listLookup "E1" (devicesFor (registerFCM (registerFCM [] 0 "carol" "E1" "q1" "s1")
          0 "dave" "E1" "q2" "s2") 0).2 =
        some { nodeNameAtRegistration := "q2", fcmToken := "s2" } ∧
      countKey "E1" (devicesFor (registerFCM (registerFCM [] 0 "carol" "E1" "q1" "s1")
          0 "dave" "E1" "q2" "s2") 0).2 = 1 ∧
      (listLookup 0 (registerFCM (registerFCM [] 0 "carol" "E1" "q1" "s1")
          0 "dave" "E1" "q2" "s2")).map (·.usernameAtRegistration) =
        (listLookup 0 (registerFCM [] 0 "carol" "E1" "q1" "s1")).map
          (·.usernameAtRegistration)) :=
  C1_register_overwrite_amended [] _ _ _ _ 0 "alice" "bob" "ph1" "ph2" "t1" "t2"
    "carol" "dave" "q1" "q2" "s1" "s2" "D1" "E1" (by decide) rfl rfl rfl rfl

/-! ## Claim theorems: partial-failure policy (C2) -/

/-- C2: during one dispatch, an APNs transport-level error (`err != nil` from
`Push`) at the first such endpoint stops everything — the attempts are exactly
the endpoints up to and including the failing one, the response is the 500
carrying the transport error text, and no FCM endpoint is attempted; whereas
if no transport-level error occurs, a provider-reported rejection
(`!res.Sent()`) is logged and every endpoint of the identity, APNS and FCM, is
still attempted. -/
theorem C2_transport_aborts_rejection_continues (d : Registry)
    (push : StableNodeID → DeviceData → ApnsOutcome)
    (send : StableNodeID → FcmDeviceData → FcmOutcome)
    (uid : UserID) (nc : NotificationContent) :
    (∀ (pre post : List (StableNodeID × DeviceData)) (n : StableNodeID)
        (dd : DeviceData) (m : String),
      (devicesFor d uid).1 = pre ++ (n, dd) :: post →
      (∀ p ∈ pre, ∀ m', push p.1 p.2 ≠ .transportErr m') →
      push n dd = .transportErr m →
      sendNote d push send uid nc =
        { attempts := apnsAttempts (apnsPayloadOf nc) pre ++
            [.apns n dd.apnsToken (apnsPayloadOf nc)],
          response := .serverErr m,
          rejectionLogs := rejLogs push pre }) ∧
    (∀ (n : StableNodeID) (dd : DeviceData) (reason : String),
      (∀ p ∈ (devicesFor d uid).1, ∀ m', push p.1 p.2 ≠ .transportErr m') →
      (∀ p ∈ (devicesFor d uid).2, ∀ m', send p.1 p.2 ≠ .failed m') →
      (n, dd) ∈ (devicesFor d uid).1 →
      push n dd = .notSent reason →
      reason ∈ (sendNote d push send uid nc).rejectionLogs ∧
      (sendNote d push send uid nc).attempts =
        apnsAttempts (apnsPayloadOf nc) (devicesFor d uid).1 ++
          fcmAttempts (fcmMsgOf nc) (devicesFor d uid).2) := by
  constructor
  · intro pre post n dd m hsplit hpre hm
    rw [sendNote_unfold, hsplit,
      apnsLoop_transport_at (apnsPayloadOf nc) push pre n dd post m hpre hm]
  · intro n dd reason hA hF hmem hp
    rw [sendNote_unfold, apnsLoop_no_transport (apnsPayloadOf nc) push _ hA,
      fcmLoop_no_fail (fcmMsgOf nc) send _ hF]
    refine ⟨?_, rfl⟩
    exact List.mem_filterMap.mpr ⟨(n, dd), hmem, by rw [hp]⟩

/-- Witness for C2_transport_aborts_rejection_continues: a transport failure
on the only APNS endpoint of `regBothEx` (aborting before its FCM endpoint),
and a rejection on the APNS endpoint with both endpoints still attempted. -/
theorem C2_transport_aborts_rejection_continues_witness :
    (sendNote regBothEx pushBoom allDelivered 0 { title := "Hi", subtitle := "", body := "" } =
      { attempts := apnsAttempts (apnsPayloadOf { title := "Hi", subtitle := "", body := "" }) [] ++
          [.apns "D1" "tokA" (apnsPayloadOf { title := "Hi", subtitle := "", body := "" })],
        response := .serverErr "boom",
        rejectionLogs := rejLogs pushBoom [] }) ∧
    ("stale" ∈ (sendNote regBothEx (fun _ _ => .notSent "stale") allDelivered 0
        { title := "Hi", subtitle := "", body := "" }).rejectionLogs ∧
      (sendNote regBothEx (fun _ _ => .notSent "stale") allDelivered 0
          { title := "Hi", subtitle := "", body := "" }).attempts =
        apnsAttempts (apnsPayloadOf { title := "Hi", subtitle := "", body := "" })
            (devicesFor regBothEx 0).1 ++
          fcmAttempts (fcmMsgOf { title := "Hi", subtitle := "", body := "" })
            (devicesFor regBothEx 0).2) := by
  constructor
  · exact (C2_transport_aborts_rejection_continues regBothEx pushBoom allDelivered 0
      { title := "Hi", subtitle := "", body := "" }).1 []
      [] "D1" { nodeNameAtRegistration := "p", apnsToken := "tokA" } "boom"
      (by decide) (fun p hp m' => absurd hp (List.not_mem_nil p)) rfl
  · exact (C2_transport_aborts_rejection_continues regBothEx
      (fun _ _ => .notSent "stale") allDelivered 0
      { title := "Hi", subtitle := "", body := "" }).2 "D1"
      { nodeNameAtRegistration := "p", apnsToken := "tokA" } "stale"
      (fun p hp m' h => ApnsOutcome.noConfusion h)
      (fun p hp m' h => FcmOutcome.noConfusion h)
      (by decide) rfl

/-! ## Attempt-filter lemmas for provider independence (C8) -/

theorem apnsAttemptsFor_append (node : StableNodeID) (x y : List Attempt) :
    apnsAttemptsFor node (x ++ y) =
      apnsAttemptsFor node x ++ apnsAttemptsFor node y := by
  unfold apnsAttemptsFor
  exact List.filter_append _ _

theorem fcmAttemptsFor_append (node : StableNodeID) (x y : List Attempt) :
    fcmAttemptsFor node (x ++ y) =
      fcmAttemptsFor node x ++ fcmAttemptsFor node y := by
  unfold fcmAttemptsFor
  exact List.filter_append _ _

theorem apnsAttemptsFor_apnsAttempts (node : StableNodeID) (payload : ApnsPayload)
    (l : List (StableNodeID × DeviceData)) :
    apnsAttemptsFor node (apnsAttempts payload l) =
      apnsAttempts payload (l.filter (fun p => p.1 = node)) := by
  unfold apnsAttemptsFor apnsAttempts
  rw [List.filter_map]
  congr 1

theorem apnsAttemptsFor_fcmAttempts (node : StableNodeID) (msg : FcmMsg)
    (l : List (StableNodeID × FcmDeviceData)) :
    apnsAttemptsFor node (fcmAttempts msg l) = [] := by
  unfold apnsAttemptsFor fcmAttempts
  rw [List.filter_map]
  have h : l.filter ((fun a : Attempt => a.isApns && decide (a.node = node)) ∘
      (fun p => Attempt.fcm p.1 p.2.fcmToken msg)) = [] := by
    rw [List.filter_eq_nil_iff]
    intro p hp hdec
    simp [Function.comp, Attempt.isApns] at hdec
  rw [h]
  rfl

theorem fcmAttemptsFor_apnsAttempts (node : StableNodeID) (payload : ApnsPayload)
    (l : List (StableNodeID × DeviceData)) :
    fcmAttemptsFor node (apnsAttempts payload l) = [] := by
  unfold fcmAttemptsFor apnsAttempts
  rw [List.filter_map]
  have h : l.filter ((fun a : Attempt => !a.isApns && decide (a.node = node)) ∘
      (fun p => Attempt.apns p.1 p.2.apnsToken payload)) = [] := by
    rw [List.filter_eq_nil_iff]
    intro p hp hdec
    simp [Function.comp, Attempt.isApns] at hdec
  rw [h]
  rfl

theorem fcmAttemptsFor_fcmAttempts (node : StableNodeID) (msg : FcmMsg)
    (l : List (StableNodeID × FcmDeviceData)) :
    fcmAttemptsFor node (fcmAttempts msg l) =
      fcmAttempts msg (l.filter (fun p => p.1 = node)) := by
  unfold fcmAttemptsFor fcmAttempts
  rw [List.filter_map]
  congr 1

theorem apnsAttempts_cons (payload : ApnsPayload) (p : StableNodeID × DeviceData)
    (l : List (StableNodeID × DeviceData)) :
    apnsAttempts payload (p :: l) =
      .apns p.1 p.2.apnsToken payload :: apnsAttempts payload l := rfl

theorem fcmAttempts_cons (msg : FcmMsg) (p : StableNodeID × FcmDeviceData)
    (l : List (StableNodeID × FcmDeviceData)) :
    fcmAttempts msg (p :: l) =
      .fcm p.1 p.2.fcmToken msg :: fcmAttempts msg l := rfl

theorem apnsLoop_attempts_sublist (payload : ApnsPayload)
    (push : StableNodeID → DeviceData → ApnsOutcome) :
    ∀ l : List (StableNodeID × DeviceData),
      ∃ l', l'.Sublist l ∧ (apnsLoop payload push l).1 = apnsAttempts payload l'
  | [] => ⟨[], List.Sublist.refl [], rfl⟩
  | (n, dd) :: rest => by
      obtain ⟨l', hsub, heq⟩ := apnsLoop_attempts_sublist payload push rest
      rcases hrec : apnsLoop payload push rest with ⟨a, logs, e⟩
      rw [hrec] at heq
      have ha : a = apnsAttempts payload l' := heq
      rcases hp : push n dd with _ | reason | m
      · refine ⟨(n, dd) :: l', hsub.cons₂ _, ?_⟩
        have hstep : apnsLoop payload push ((n, dd) :: rest) =
            (Attempt.apns n dd.apnsToken payload :: a, logs, e) := by
          simp only [apnsLoop, hp, hrec]
        rw [hstep, apnsAttempts_cons, ← ha]
      · refine ⟨(n, dd) :: l', hsub.cons₂ _, ?_⟩
        have hstep : apnsLoop payload push ((n, dd) :: rest) =
            (Attempt.apns n dd.apnsToken payload :: a, reason :: logs, e) := by
          simp only [apnsLoop, hp, hrec]
        rw [hstep, apnsAttempts_cons, ← ha]
      · refine ⟨[(n, dd)], (List.nil_sublist rest).cons₂ _, ?_⟩
        have hstep : apnsLoop payload push ((n, dd) :: rest) =
            ([Attempt.apns n dd.apnsToken payload], [], some m) := by
          simp only [apnsLoop, hp]
        rw [hstep]
        rfl

theorem fcmLoop_attempts_sublist (msg : FcmMsg)
    (send : StableNodeID → FcmDeviceData → FcmOutcome) :
    ∀ l : List (StableNodeID × FcmDeviceData),
      ∃ l', l'.Sublist l ∧ (fcmLoop msg send l).1 = fcmAttempts msg l'
  | [] => ⟨[], List.Sublist.refl [], rfl⟩
  | (n, fd) :: rest => by
      obtain ⟨l', hsub, heq⟩ := fcmLoop_attempts_sublist msg send rest
      rcases hrec : fcmLoop msg send rest with ⟨b, e⟩
      rw [hrec] at heq
      have hb : b = fcmAttempts msg l' := heq
      rcases hp : send n fd with _ | m
      · refine ⟨(n, fd) :: l', hsub.cons₂ _, ?_⟩
        have hstep : fcmLoop msg send ((n, fd) :: rest) =
            (Attempt.fcm n fd.fcmToken msg :: b, e) := by
          simp only [fcmLoop, hp, hrec]
        rw [hstep, fcmAttempts_cons, ← hb]
      · refine ⟨[(n, fd)], (List.nil_sublist rest).cons₂ _, ?_⟩
        have hstep : fcmLoop msg send ((n, fd) :: rest) =
            ([Attempt.fcm n fd.fcmToken msg], some m) := by
          simp only [fcmLoop, hp]
        rw [hstep]
        rfl

/-- Whatever the adapter outcomes, the attempts of one dispatch are the APNS
attempts for a sublist of the identity's APNS endpoints followed by the FCM
attempts for a sublist of its FCM endpoints. -/
theorem sendNote_attempts_shape (d : Registry)
    (push : StableNodeID → DeviceData → ApnsOutcome)
    (send : StableNodeID → FcmDeviceData → FcmOutcome)
    (uid : UserID) (nc : NotificationContent) :
    ∃ (la : List (StableNodeID × DeviceData)) (lf : List (StableNodeID × FcmDeviceData)),
      la.Sublist (devicesFor d uid).1 ∧ lf.Sublist (devicesFor d uid).2 ∧
      (sendNote d push send uid nc).attempts =
        apnsAttempts (apnsPayloadOf nc) la ++ fcmAttempts (fcmMsgOf nc) lf := by
  obtain ⟨la, hsubA, heqA⟩ :=
    apnsLoop_attempts_sublist (apnsPayloadOf nc) push (devicesFor d uid).1
  obtain ⟨lf, hsubF, heqF⟩ :=
    fcmLoop_attempts_sublist (fcmMsgOf nc) send (devicesFor d uid).2
  rcases happ : apnsLoop (apnsPayloadOf nc) push (devicesFor d uid).1 with ⟨a, logs, e⟩
  rcases hfcm : fcmLoop (fcmMsgOf nc) send (devicesFor d uid).2 with ⟨b, e2⟩
  rw [happ] at heqA
  rw [hfcm] at heqF
  have ha : a = apnsAttempts (apnsPayloadOf nc) la := heqA
  have hb : b = fcmAttempts (fcmMsgOf nc) lf := heqF
  rcases e with _ | m
  · rcases e2 with _ | m2
    · refine ⟨la, lf, hsubA, hsubF, ?_⟩
      rw [sendNote_unfold, happ, hfcm]
      show a ++ b = _
      rw [ha, hb]
    · refine ⟨la, lf, hsubA, hsubF, ?_⟩
      rw [sendNote_unfold, happ, hfcm]
      show a ++ b = _
      rw [ha, hb]
  · refine ⟨la, [], hsubA, List.nil_sublist _, ?_⟩
    rw [sendNote_unfold, happ]
    show a = _
    rw [ha]
    simp [fcmAttempts]

/-! ## Claim theorems: provider independence (C8) -/

/-- C8 counterexample: in `regBothEx` device "D1" is registered under both
providers, but in a dispatch where the APNs push fails at transport level the
dispatch aborts after the one APNS attempt, so "D1" receives zero FCM
attempts rather than the exactly-one-per-provider the claim requires for
every dispatch call. -/
theorem C8_counterexample :
    listLookup "D1" (devicesFor regBothEx 0).2 =
      some { nodeNameAtRegistration := "p", fcmToken := "tokF" } ∧
    apnsAttemptsFor "D1" (sendNote regBothEx pushBoom allDelivered 0
        { title := "Hi", subtitle := "", body := "" }).attempts ≠ [] ∧
    fcmAttemptsFor "D1" (sendNote regBothEx pushBoom allDelivered 0
        { title := "Hi", subtitle := "", body := "" }).attempts = [] := by
  refine ⟨?_, ?_, ?_⟩ <;> decide

/-- C8 amended: a device not registered under a provider never receives an
attempt from that provider, in every dispatch (first two conjuncts,
unconditional); and in a dispatch in which no adapter reports a
transport-level failure, every device registered under a provider receives
exactly one attempt from that provider, carrying its stored token for that
provider (last conjunct; key uniqueness is as in any Go map). -/
theorem C8_provider_independence_amended (d : Registry)
    (push : StableNodeID → DeviceData → ApnsOutcome)
    (send : StableNodeID → FcmDeviceData → FcmOutcome)
    (uid : UserID) (nc : NotificationContent) :
    (∀ node, listLookup node (devicesFor d uid).1 = none →
        apnsAttemptsFor node (sendNote d push send uid nc).attempts = []) ∧
    (∀ node, listLookup node (devicesFor d uid).2 = none →
        fcmAttemptsFor node (sendNote d push send uid nc).attempts = []) ∧
    ((∀ p ∈ (devicesFor d uid).1, ∀ m, push p.1 p.2 ≠ .transportErr m) →
      (∀ p ∈ (devicesFor d uid).2, ∀ m, send p.1 p.2 ≠ .failed m) →
      NodupKeys (devicesFor d uid).1 → NodupKeys (devicesFor d uid).2 →
      (∀ node dd, listLookup node (devicesFor d uid).1 = some dd →
          apnsAttemptsFor node (sendNote d push send uid nc).attempts =
            [.apns node dd.apnsToken (apnsPayloadOf nc)]) ∧
      (∀ node fd, listLookup node (devicesFor d uid).2 = some fd →
          fcmAttemptsFor node (sendNote d push send uid nc).attempts =
            [.fcm node fd.fcmToken (fcmMsgOf nc)])) := by
  obtain ⟨la, lf, hsubA, hsubF, hshape⟩ := sendNote_attempts_shape d push send uid nc
  refine ⟨?_, ?_, ?_⟩
  · intro node hnone
    have hfilter : la.filter (fun p => p.1 = node) = [] := by
      rw [List.filter_eq_nil_iff]
      intro p hp hdec
      simp only [decide_eq_true_eq] at hdec
      have hmem : p.1 ∈ ((devicesFor d uid).1).map Prod.fst :=
        List.mem_map_of_mem _ (hsubA.subset hp)
      rw [hdec] at hmem
      exact (listLookup_eq_none.mp hnone) hmem
    rw [hshape, apnsAttemptsFor_append, apnsAttemptsFor_apnsAttempts,
      apnsAttemptsFor_fcmAttempts, hfilter]
    rfl
  · intro node hnone
    have hfilter : lf.filter (fun p => p.1 = node) = [] := by
      rw [List.filter_eq_nil_iff]
      intro p hp hdec
      simp only [decide_eq_true_eq] at hdec
      have hmem : p.1 ∈ ((devicesFor d uid).2).map Prod.fst :=
        List.mem_map_of_mem _ (hsubF.subset hp)
      rw [hdec] at hmem
      exact (listLookup_eq_none.mp hnone) hmem
    rw [hshape, fcmAttemptsFor_append, fcmAttemptsFor_apnsAttempts,
      fcmAttemptsFor_fcmAttempts, hfilter]
    rfl
  · intro hA hF hndA hndF
    have hatt : (sendNote d push send uid nc).attempts =
        apnsAttempts (apnsPayloadOf nc) (devicesFor d uid).1 ++
          fcmAttempts (fcmMsgOf nc) (devicesFor d uid).2 := by
      rw [sendNote_unfold, apnsLoop_no_transport (apnsPayloadOf nc) push _ hA,
        fcmLoop_no_fail (fcmMsgOf nc) send _ hF]
    constructor
    · intro node dd hlk
      rw [hatt, apnsAttemptsFor_append, apnsAttemptsFor_apnsAttempts,
        apnsAttemptsFor_fcmAttempts, listLookup_filter_eq_of_nodup hndA hlk]
      rfl
    · intro node fd hlk
      rw [hatt, fcmAttemptsFor_append, fcmAttemptsFor_apnsAttempts,
        fcmAttemptsFor_fcmAttempts, listLookup_filter_eq_of_nodup hndF hlk]
      rfl

/-- Witness for C8_provider_independence_amended: the spec's concrete
scenario — register device D1 for user 1 via `/register` with token
"tok-apns-1", register D1 again via `/registerFCM` with token "tok-fcm-1",
dispatch with title "Hi": exactly one APNS attempt with "tok-apns-1" and one
FCM attempt with "tok-fcm-1", both for D1. -/
theorem C8_provider_independence_amended_witness :
    apnsAttemptsFor "D1" (sendNote
        (registerFCM (registerAPNS [] 1 "u1" "D1" "dev" "tok-apns-1")
          1 "u1" "D1" "dev" "tok-fcm-1") allSent allDelivered 1
        { title := "Hi", subtitle := "", body := "" }).attempts =
      [.apns "D1" "tok-apns-1"
        (apnsPayloadOf { title := "Hi", subtitle := "", body := "" })] ∧
    fcmAttemptsFor "D1" (sendNote
        (registerFCM (registerAPNS [] 1 "u1" "D1" "dev" "tok-apns-1")
          1 "u1" "D1" "dev" "tok-fcm-1") allSent allDelivered 1
        { title := "Hi", subtitle := "", body := "" }).attempts =
      [.fcm "D1" "tok-fcm-1" (fcmMsgOf { title := "Hi", subtitle := "", body := "" })] := by
  constructor
  · exact ((C8_provider_independence_amended
      (registerFCM (registerAPNS [] 1 "u1" "D1" "dev" "tok-apns-1")
        1 "u1" "D1" "dev" "tok-fcm-1") allSent allDelivered 1
      { title := "Hi", subtitle := "", body := "" }).2.2
      (fun p hp m h => ApnsOutcome.noConfusion h)
      (fun p hp m h => FcmOutcome.noConfusion h)
      (by decide) (by decide)).1 "D1"
      { nodeNameAtRegistration := "dev", apnsToken := "tok-apns-1" } (by decide)
  · exact ((C8_provider_independence_amended
      (registerFCM (registerAPNS [] 1 "u1" "D1" "dev" "tok-apns-1")
        1 "u1" "D1" "dev" "tok-fcm-1") allSent allDelivered 1
      { title := "Hi", subtitle := "", body := "" }).2.2
      (fun p hp m h => ApnsOutcome.noConfusion h)
      (fun p hp m h => FcmOutcome.noConfusion h)
      (by decide) (by decide)).2 "D1"
      { nodeNameAtRegistration := "dev", fcmToken := "tok-fcm-1" } (by decide)

end Cliff
